import Mathlib

/-!
Verification of the terranames auction and root-collector engines.

Shallow embedding notes:

* `Timestamp`/`Timedelta` (wrappers around `Uint64`) and `Uint128` are
  modelled as `Nat`.  CosmWasm's `checked_sub` (and the panicking `-`
  operator on `Uint128`, which is `checked_sub(..).unwrap()`) is modelled
  as an `Option`-valued subtraction, since underflow aborts at any
  magnitude; `saturating_sub` is Lean's truncated `Nat.sub`.
* `seconds_from_deposit` casts its `u128` quotient to `u64` with `as u64`,
  a silent truncation, modelled as `% 2 ^ 64`.
* Addresses are modelled as `String`.
* Bank messages built by `refund_deposit_msg` / `send_to_collector_msg`
  run the injected tax adapter (`deduct_coin_tax`) on the wire; the
  effects below carry the pre-tax instruction amounts, matching the
  `refund`/`deposit` response attributes.  The tax adapter is an external
  collaborator and out of scope.
* Storage is not modelled: execute functions take the loaded record and
  return the record that would be stored plus the outbound effects; an
  error result means no store happens (state unchanged).
-/

/-- Seconds per rate period (24 hours), `RATE_SEC_DENOM` in `auction.rs`. -/
def RATE_SEC_DENOM : Nat := 24 * 60 * 60

/-- `deposit_from_seconds_floor`: `rate.multiply_ratio(seconds, RATE_SEC_DENOM)`. -/
def deposit_from_seconds_floor (seconds rate : Nat) : Nat :=
  rate * seconds / RATE_SEC_DENOM

/-- `deposit_from_seconds_ceil`: `1.multiply_ratio(seconds * rate + RATE_SEC_DENOM - 1, RATE_SEC_DENOM)`. -/
def deposit_from_seconds_ceil (seconds rate : Nat) : Nat :=
  (seconds * rate + RATE_SEC_DENOM - 1) / RATE_SEC_DENOM

/-- `seconds_from_deposit`: `None` on zero rate, otherwise
`deposit.multiply_ratio(RATE_SEC_DENOM, rate)` truncated by the `as u64` cast. -/
def seconds_from_deposit (deposit rate : Nat) : Option Nat :=
  if rate = 0 then none
  else some (deposit * RATE_SEC_DENOM / rate % 2 ^ 64)

/-- Checked subtraction: `Uint64::checked_sub` / `Uint128::checked_sub`
(also the semantics of the panicking `-` operator on `Uint128`). -/
def checked_sub (a b : Nat) : Option Nat :=
  if a < b then none else some (a - b)

/-- Auction `Config` (timestamps and amounts as `Nat`). -/
structure Config where
  collector_addr : String
  stable_denom : String
  min_lease_secs : Nat
  max_lease_secs : Nat
  counter_delay_secs : Nat
  transition_delay_secs : Nat
  bid_delay_secs : Nat
  deriving DecidableEq, Repr

/-- Auction `NameState` record. -/
structure NameState where
  owner : String
  controller : Option String
  transition_reference_time : Nat
  rate : Nat
  begin_time : Nat
  begin_deposit : Nat
  previous_owner : Option String
  previous_transition_reference_time : Nat
  deriving DecidableEq, Repr

/-- `OwnerStatus` phases. -/
inductive OwnerStatus where
  | counterDelay (name_owner : Option String) (bid_owner : String)
      (transition_reference_time : Nat)
  | transitionDelay (owner : String) (transition_reference_time : Nat)
  | valid (owner : String) (transition_reference_time : Nat)
  | expired (expire_time : Nat) (transition_reference_time : Nat)
  deriving DecidableEq, Repr

/-- `NameState::seconds_spent_since_bid`: `current_time.checked_sub(begin_time)`. -/
def NameState.seconds_spent_since_bid (ns : NameState) (current_time : Nat) :
    Option Nat :=
  checked_sub current_time ns.begin_time

/-- `NameState::seconds_spent_since_transition`. -/
def NameState.seconds_spent_since_transition (ns : NameState)
    (current_time : Nat) : Option Nat :=
  checked_sub current_time ns.transition_reference_time

/-- `NameState::counter_delay_end`. -/
def NameState.counter_delay_end (ns : NameState) (config : Config) : Nat :=
  ns.begin_time + config.counter_delay_secs

/-- `NameState::transition_delay_end`. -/
def NameState.transition_delay_end (ns : NameState) (config : Config) : Nat :=
  if ns.transition_reference_time = 0 then
    ns.begin_time
  else
    ns.transition_reference_time + config.counter_delay_secs +
      config.transition_delay_secs

/-- `NameState::bid_delay_end` (no effective bid delay at zero rate). -/
def NameState.bid_delay_end (ns : NameState) (config : Config) : Nat :=
  ns.begin_time +
    (if ns.rate ≠ 0 then config.counter_delay_secs + config.bid_delay_secs
     else 0)

/-- `NameState::max_seconds`. -/
def NameState.max_seconds (ns : NameState) : Option Nat :=
  seconds_from_deposit ns.begin_deposit ns.rate

/-- `NameState::expire_time`. -/
def NameState.expire_time (ns : NameState) : Option Nat :=
  ns.max_seconds.map (fun max_s => ns.begin_time + max_s)

/-- `NameState::current_deposit`.  Returns zero before `begin_time`;
otherwise `begin_deposit - deposit_spent` where `-` is the checked
(panicking) `Uint128` subtraction: `none` models the abort. -/
def NameState.current_deposit (ns : NameState) (current_time : Nat) :
    Option Nat :=
  match ns.seconds_spent_since_bid current_time with
  | none => some 0
  | some seconds_spent =>
      checked_sub ns.begin_deposit (deposit_from_seconds_ceil seconds_spent ns.rate)

/-- `NameState::max_allowed_deposit`. -/
def NameState.max_allowed_deposit (ns : NameState) (config : Config)
    (current_time : Nat) : Nat :=
  match ns.seconds_spent_since_bid current_time with
  | none => 0
  | some seconds_spent =>
      deposit_from_seconds_floor (config.max_lease_secs + seconds_spent) ns.rate

/-- Tail of `NameState::owner_status` after the expiry early returns:
the transition-delay lookup and the counter/transition/valid decision. -/
def NameState.owner_status_tail (ns : NameState) (config : Config)
    (seconds_spent_since_bid current_time : Nat) : OwnerStatus :=
  match ns.seconds_spent_since_transition current_time with
  | none => .expired 0 ns.transition_reference_time
  | some seconds_spent_since_transition =>
      if seconds_spent_since_bid < config.counter_delay_secs then
        .counterDelay ns.previous_owner ns.owner
          ns.previous_transition_reference_time
      else if seconds_spent_since_transition <
          config.counter_delay_secs + config.transition_delay_secs then
        .transitionDelay ns.owner ns.transition_reference_time
      else
        .valid ns.owner ns.transition_reference_time

/-- `NameState::owner_status`. -/
def NameState.owner_status (ns : NameState) (config : Config)
    (current_time : Nat) : OwnerStatus :=
  match ns.seconds_spent_since_bid current_time with
  | none => .expired 0 ns.transition_reference_time
  | some seconds_spent_since_bid =>
      match ns.max_seconds with
      | some max_seconds =>
          if max_seconds ≤ seconds_spent_since_bid then
            .expired (ns.begin_time + max_seconds) ns.transition_reference_time
          else
            ns.owner_status_tail config seconds_spent_since_bid current_time
      | none => ns.owner_status_tail config seconds_spent_since_bid current_time

/-- `OwnerStatus::can_set_rate`. -/
def OwnerStatus.can_set_rate (st : OwnerStatus) (sender : String) : Bool :=
  match st with
  | .valid owner _ => sender = owner
  | .transitionDelay owner _ => sender = owner
  | _ => false

/-- `OwnerStatus::can_transfer_name_owner`. -/
def OwnerStatus.can_transfer_name_owner (st : OwnerStatus) (sender : String) :
    Bool :=
  match st with
  | .valid owner _ => sender = owner
  | .counterDelay (some owner) _ _ => sender = owner
  | .transitionDelay owner _ => sender = owner
  | _ => false

/-- `OwnerStatus::can_transfer_bid_owner`. -/
def OwnerStatus.can_transfer_bid_owner (st : OwnerStatus) (sender : String) :
    Bool :=
  match st with
  | .counterDelay _ bid_owner _ => sender = bid_owner
  | _ => false

/-- Whether the status is the `Expired` variant. -/
def OwnerStatus.isExpired : OwnerStatus → Bool
  | .expired _ _ => true
  | _ => false

/-- `ContractError` of the auction contract (`errors.rs`); `overflow`
covers `OverflowError` propagated through `?` via the `From` impl. -/
inductive ContractError where
  | std
  | overflow
  | unauthorized
  | unfunded
  | invalidConfig
  | closedForBids
  | bidRateTooLow (rate : Nat)
  | bidDepositTooLow (deposit : Nat)
  | bidInvalidInterval
  | unexpectedState
  deriving DecidableEq, Repr

/-- Outbound bank effects, carrying pre-tax instruction amounts:
`refund` is `refund_deposit_msg`, `forward` is `send_to_collector_msg`. -/
inductive Effect where
  | refund (recipient : String) (amount : Nat)
  | forward (amount : Nat)
  deriving DecidableEq, Repr

/-- Sum of the refunded amounts in an effect list. -/
def sumRefunds (effects : List Effect) : Nat :=
  effects.foldr (fun e acc => match e with
    | .refund _ amount => amount + acc
    | .forward _ => acc) 0

/-- Sum of the amounts forwarded to the collector in an effect list. -/
def sumForwards (effects : List Effect) : Nat :=
  effects.foldr (fun e acc => match e with
    | .refund _ _ => acc
    | .forward amount => amount + acc) 0

/-- `MessageInfo`: sender plus attached coins (denom, amount). -/
structure MessageInfo where
  sender : String
  funds : List (String × Nat)
  deriving DecidableEq, Repr

/-- `get_sent_funds`: amount of the first attached coin of the denom, else zero. -/
def get_sent_funds (info : MessageInfo) (denom : String) : Nat :=
  ((info.funds.find? (fun c => c.1 = denom)).map Prod.snd).getD 0

/-- Result of an execute call: the stored record plus effects, or a typed
error (in which case the record is unchanged). -/
abbrev ExecResult := Except ContractError (NameState × List Effect)

/-- `execute_bid_existing`.  The outer `Option` models the
`panic!("Invalid block time")` when `now < begin_time` (`none`);
`owner` and `transition_reference_time` are the authoritative owner and
transition reference extracted from the phase by `execute_bid`. -/
def execute_bid_existing (config : Config) (info : MessageInfo) (now : Nat)
    (name_state : NameState) (owner : Option String)
    (transition_reference_time : Nat) (rate : Nat) : Option ExecResult :=
  if info.sender = name_state.owner then
    some (.error .unauthorized)
  else
    match name_state.seconds_spent_since_bid now with
    | none => none
    | some seconds_spent_since_bid =>
      if config.counter_delay_secs ≤ seconds_spent_since_bid ∧
          seconds_spent_since_bid <
            config.counter_delay_secs + config.bid_delay_secs ∧
          name_state.rate ≠ 0 then
        some (.error .closedForBids)
      else if rate ≤ name_state.rate then
        some (.error (.bidRateTooLow name_state.rate))
      else
        let msg_deposit := get_sent_funds info config.stable_denom
        let deposit_spent :=
          deposit_from_seconds_ceil seconds_spent_since_bid name_state.rate
        let deposit_left := name_state.begin_deposit - deposit_spent
        if msg_deposit ≤ deposit_left then
          some (.error (.bidDepositTooLow deposit_left))
        else
          let min_deposit := deposit_from_seconds_ceil config.min_lease_secs rate
          let max_deposit := deposit_from_seconds_floor config.max_lease_secs rate
          if msg_deposit < min_deposit ∨ max_deposit < msg_deposit then
            some (.error .bidInvalidInterval)
          else
            let previous_bidder := name_state.owner
            let new_state : NameState :=
              { name_state with
                previous_owner := owner
                previous_transition_reference_time := transition_reference_time
                owner := info.sender
                rate := rate
                begin_time := now
                begin_deposit := msg_deposit
                transition_reference_time :=
                  if some info.sender ≠ owner then now
                  else transition_reference_time }
            match checked_sub msg_deposit deposit_left with
            | none => some (.error .overflow)
            | some excess_deposit =>
                let effects :=
                  (if deposit_left ≠ 0 then
                    [Effect.refund previous_bidder deposit_left] else []) ++
                  [Effect.forward excess_deposit]
                some (.ok (new_state, effects))

/-- `execute_bid_new`: fresh record creation (no record, or bid over an
expired record, with `transition_reference_time` the expire time or zero). -/
def execute_bid_new (config : Config) (info : MessageInfo) (now : Nat)
    (transition_reference_time : Nat) (rate : Nat) : ExecResult :=
  let msg_deposit := get_sent_funds info config.stable_denom
  let min_deposit := deposit_from_seconds_ceil config.min_lease_secs rate
  let max_deposit := deposit_from_seconds_floor config.max_lease_secs rate
  if msg_deposit < min_deposit ∨ max_deposit < msg_deposit then
    .error .bidInvalidInterval
  else
    let name_state : NameState :=
      { owner := info.sender
        controller := none
        transition_reference_time := transition_reference_time
        begin_time := now
        begin_deposit := msg_deposit
        rate := rate
        previous_owner := none
        previous_transition_reference_time := 0 }
    .ok (name_state,
      if msg_deposit ≠ 0 then [Effect.forward msg_deposit] else [])

/-- `execute_bid`: dispatch on the phase of the stored record (if any). -/
def execute_bid (config : Config) (info : MessageInfo) (now : Nat)
    (stored : Option NameState) (rate : Nat) : Option ExecResult :=
  match stored with
  | some name_state =>
      match name_state.owner_status config now with
      | .valid owner transition_reference_time =>
          execute_bid_existing config info now name_state (some owner)
            transition_reference_time rate
      | .transitionDelay owner transition_reference_time =>
          execute_bid_existing config info now name_state (some owner)
            transition_reference_time rate
      | .counterDelay name_owner _ transition_reference_time =>
          execute_bid_existing config info now name_state name_owner
            transition_reference_time rate
      | .expired expire_time _ =>
          some (execute_bid_new config info now expire_time rate)
  | none => some (execute_bid_new config info now 0 rate)

/-- `execute_fund`.  The record is taken as input (`read_name_state`
failing for a missing record is not modelled). -/
def execute_fund (config : Config) (info : MessageInfo) (now : Nat)
    (name_state : NameState) (owner : String) : ExecResult :=
  let msg_deposit := get_sent_funds info config.stable_denom
  if msg_deposit = 0 then
    .error .unfunded
  else if name_state.owner ≠ owner then
    .error .unexpectedState
  else
    let combined_deposit := msg_deposit + name_state.begin_deposit
    let max_deposit := name_state.max_allowed_deposit config now
    if max_deposit < combined_deposit then
      .error .bidInvalidInterval
    else
      .ok ({ name_state with begin_deposit := combined_deposit },
        [Effect.forward msg_deposit])

/-- `execute_set_rate`.  The `?` on `checked_sub` surfaces as an
`overflow` error (unreachable once `can_set_rate` holds). -/
def execute_set_rate (config : Config) (info : MessageInfo) (now : Nat)
    (name_state : NameState) (rate : Nat) : ExecResult :=
  let owner_status := name_state.owner_status config now
  if ¬ owner_status.can_set_rate info.sender then
    .error .unauthorized
  else
    match checked_sub now name_state.begin_time with
    | none => .error .overflow
    | some seconds_spent =>
      let spent_deposit := deposit_from_seconds_ceil seconds_spent name_state.rate
      let new_deposit := name_state.begin_deposit - spent_deposit
      let min_deposit := deposit_from_seconds_ceil config.min_lease_secs rate
      let max_deposit := deposit_from_seconds_floor config.max_lease_secs rate
      if new_deposit < min_deposit ∨ max_deposit < new_deposit then
        .error .bidInvalidInterval
      else
        .ok ({ name_state with
          rate := rate
          begin_time := now
          begin_deposit := new_deposit
          previous_owner := some name_state.owner
          previous_transition_reference_time :=
            name_state.transition_reference_time }, [])

/-- `DECIMAL_FRACTIONAL`: denominator of the CosmWasm `Decimal`
fixed-point type (`Decimal::one().denominator()` = 10^18).  A `Decimal`
is represented below by its numerator as a `Nat`. -/
def DECIMAL_FRACTIONAL : Nat := 10 ^ 18

/-- Root-collector `StakeState` (`multiplier` is the `Decimal` numerator). -/
structure StakeState where
  staked_amount : Nat
  unstaking_amount : Nat
  unstaking_begin_time : Option Nat
  unstaked_amount : Nat
  multiplier : Nat
  dividend : Nat
  deriving DecidableEq, Repr

/-- `StakeState::dividend` ("Return full dividend"): the cached dividend
plus `staked_amount.multiply_ratio(saturating_sub(global, entry), 10^18)`;
`Nat.sub` is the saturating subtraction of the source. -/
def StakeState.full_dividend (s : StakeState) (global_multiplier : Nat) : Nat :=
  s.dividend +
    s.staked_amount * (global_multiplier - s.multiplier) / DECIMAL_FRACTIONAL

/-- `StakeState::update_dividend`. -/
def StakeState.update_dividend (s : StakeState) (global_multiplier : Nat) :
    StakeState :=
  { s with
    dividend := s.full_dividend global_multiplier
    multiplier := global_multiplier }

/-- `StakeState::unstaking_unstaked_amount` ("Return full unstaked
amount"): the read-only view, using the strict comparison
`begin_time + unstake_delay < timestamp` of the source. -/
def StakeState.unstaking_unstaked_amount (s : StakeState)
    (timestamp unstake_delay : Nat) : Nat × Nat :=
  let p : Nat × Nat :=
    match s.unstaking_begin_time with
    | some begin_time =>
        if begin_time + unstake_delay < timestamp then
          (0, s.unstaking_amount)
        else
          (s.unstaking_amount, 0)
    | none => (0, 0)
  (p.1, s.unstaked_amount + p.2)

/-- `StakeState::update_unstaked_amount`: the state-updating fold, using
the inclusive comparison `begin_time + unstake_delay <= timestamp`. -/
def StakeState.update_unstaked_amount (s : StakeState)
    (timestamp unstake_delay : Nat) : StakeState :=
  match s.unstaking_begin_time with
  | some begin_time =>
      if begin_time + unstake_delay ≤ timestamp then
        { s with
          unstaked_amount := s.unstaked_amount + s.unstaking_amount
          unstaking_amount := 0
          unstaking_begin_time := none }
      else s
  | none => s

/-- `NameStateResponse` of `auction.rs`. -/
structure NameStateResponse where
  name_owner : Option String
  bid_owner : Option String
  controller : Option String
  rate : Nat
  begin_time : Nat
  begin_deposit : Nat
  current_deposit : Nat
  counter_delay_end : Nat
  transition_delay_end : Nat
  bid_delay_end : Nat
  expire_time : Option Nat
  deriving DecidableEq, Repr

/-- Modelled from the spec: the `GetNameState` query response builder.
The `query_name_state` body in `contract.rs` belongs to a different
revision — it populates fields (`owner`, `previous_owner`) that the
declared `NameStateResponse` does not have and omits `name_owner`,
`bid_owner` and `current_deposit` — so the response construction is
modelled from the spec: `name_owner`/`bid_owner` come from the phase
(`None`/`None` in Expired, the phase's `name_owner` and bid holder in
CounterDelay, the owner twice in Valid/TransitionDelay), the delay ends
come from the record, and `current_deposit` is the remaining deposit
`begin_deposit − ceil-spent or zero (saturating)` of spec I2. -/
def query_name_state (config : Config) (name_state : NameState) (now : Nat) :
    NameStateResponse :=
  let pair : Option String × Option String :=
    match name_state.owner_status config now with
    | .valid owner _ => (some owner, some owner)
    | .transitionDelay owner _ => (some owner, some owner)
    | .counterDelay name_owner bid_owner _ => (name_owner, some bid_owner)
    | .expired _ _ => (none, none)
  { name_owner := pair.1
    bid_owner := pair.2
    controller := name_state.controller
    rate := name_state.rate
    begin_time := name_state.begin_time
    begin_deposit := name_state.begin_deposit
    current_deposit := name_state.begin_deposit -
      deposit_from_seconds_ceil (now - name_state.begin_time) name_state.rate
    counter_delay_end := name_state.counter_delay_end config
    transition_delay_end := name_state.transition_delay_end config
    bid_delay_end := name_state.bid_delay_end config
    expire_time := name_state.expire_time }

/-- Decision list of claim C1, written from the claim's words: expiry
checks first, then `CounterDelay` on `s < counter_delay`, then
`TransitionDelay` on a transition difference computed saturating to
zero, else `Valid`. -/
def owner_status_claimed_tail (config : Config) (ns : NameState)
    (now s : Nat) : OwnerStatus :=
  if s < config.counter_delay_secs then
    .counterDelay ns.previous_owner ns.owner
      ns.previous_transition_reference_time
  else if now - ns.transition_reference_time <
      config.counter_delay_secs + config.transition_delay_secs then
    .transitionDelay ns.owner ns.transition_reference_time
  else
    .valid ns.owner ns.transition_reference_time

/-- Phase classifier exactly as claim C1 states it. -/
def owner_status_claimed (config : Config) (ns : NameState) (now : Nat) :
    OwnerStatus :=
  if now < ns.begin_time then
    .expired 0 ns.transition_reference_time
  else
    match seconds_from_deposit ns.begin_deposit ns.rate with
    | some max_s =>
        if max_s ≤ now - ns.begin_time then
          .expired (ns.begin_time + max_s) ns.transition_reference_time
        else owner_status_claimed_tail config ns now (now - ns.begin_time)
    | none => owner_status_claimed_tail config ns now (now - ns.begin_time)

/-- Decision list of claim C1 as amended: an additional clause classifies
`now < transition_reference_time` as `Expired{0, transition_ref}` before
the counter-delay test; past it the transition difference is exact. -/
def owner_status_amended_tail (config : Config) (ns : NameState)
    (now s : Nat) : OwnerStatus :=
  if now < ns.transition_reference_time then
    .expired 0 ns.transition_reference_time
  else owner_status_claimed_tail config ns now s

/-- Phase classifier as claim C1 states it, amended per
`owner_status_amended_tail`. -/
def owner_status_amended (config : Config) (ns : NameState) (now : Nat) :
    OwnerStatus :=
  if now < ns.begin_time then
    .expired 0 ns.transition_reference_time
  else
    match seconds_from_deposit ns.begin_deposit ns.rate with
    | some max_s =>
        if max_s ≤ now - ns.begin_time then
          .expired (ns.begin_time + max_s) ns.transition_reference_time
        else owner_status_amended_tail config ns now (now - ns.begin_time)
    | none => owner_status_amended_tail config ns now (now - ns.begin_time)

/-- Concrete configuration for the C1 counterexample. -/
def cexConfigC1 : Config :=
  { collector_addr := "col", stable_denom := "uusd", min_lease_secs := 0,
    max_lease_secs := 86400, counter_delay_secs := 10,
    transition_delay_secs := 10, bid_delay_secs := 10 }

/-- Concrete record for the C1 counterexample: zero rate, bid begun at 0,
transition reference in the future of `now = 5`. -/
def cexNameStateC1 : NameState :=
  { owner := "bob", controller := none, transition_reference_time := 100,
    rate := 0, begin_time := 0, begin_deposit := 0,
    previous_owner := none, previous_transition_reference_time := 0 }

/-- C1 (counterexample): at `now = 5` the source classifier returns
`Expired{0, 100}` (the transition difference underflows and the code
falls into its `Expired` fallback), while the claim's decision order —
saturating the transition difference to zero — returns
`CounterDelay` since `s = 5 < counter_delay`. -/
theorem c1_counterexample :
    cexNameStateC1.owner_status cexConfigC1 5 = .expired 0 100 ∧
    owner_status_claimed cexConfigC1 cexNameStateC1 5 =
      .counterDelay none "bob" 0 ∧
    cexNameStateC1.owner_status cexConfigC1 5 ≠
      owner_status_claimed cexConfigC1 cexNameStateC1 5 := by
  refine ⟨rfl, rfl, ?_⟩
  decide

/-- Shared shape lemma: the source classifier tail equals the amended
claim tail. -/
theorem owner_status_tail_eq_amended (config : Config) (ns : NameState)
    (now s : Nat) :
    ns.owner_status_tail config s now = owner_status_amended_tail config ns now s := by
  unfold NameState.owner_status_tail owner_status_amended_tail
    owner_status_claimed_tail NameState.seconds_spent_since_transition
    checked_sub
  by_cases h : now < ns.transition_reference_time <;> simp [h]

/-- C1 (amended): `owner_status` is total and follows the claim's
decision order amended with one clause — when `now <
transition_reference_time` it returns `Expired{0, transition_ref}`
(before the counter-delay test); with that clause the transition
difference is exact and the rest of the claimed order is verbatim. -/
theorem c1_owner_status_decision_order (config : Config) (ns : NameState)
    (now : Nat) :
    ns.owner_status config now = owner_status_amended config ns now := by
  unfold NameState.owner_status owner_status_amended
    NameState.seconds_spent_since_bid NameState.max_seconds checked_sub
  by_cases h : now < ns.begin_time <;> simp [h]
  cases hm : seconds_from_deposit ns.begin_deposit ns.rate with
  | none => simp [owner_status_tail_eq_amended]
  | some max_s =>
      by_cases hle : max_s ≤ now - ns.begin_time <;>
        simp [hle, owner_status_tail_eq_amended]

/-- Concrete record for the C3 failing input: rate `86400` (one unit per
second), deposit 10, bid begun at time 0. -/
def cexNameStateC3 : NameState :=
  { owner := "alice", controller := none, transition_reference_time := 0,
    rate := 86400, begin_time := 0, begin_deposit := 10,
    previous_owner := none, previous_transition_reference_time := 0 }

/-- C3 (failing input): at `now = 11` the spent rent is 11, exceeding the
deposit of 10, and `current_deposit` underflows (`none` models the abort
of the checked `Uint128` subtraction) instead of saturating to zero as
the claim and spec I2 state.  The sibling paths (`execute_bid_existing`,
`execute_set_rate`) compute the same quantity with `saturating_sub`. -/
theorem c3_current_deposit_underflow :
    deposit_from_seconds_ceil 11 cexNameStateC3.rate = 11 ∧
    11 > cexNameStateC3.begin_deposit ∧
    cexNameStateC3.current_deposit 11 = none := by
  decide

/-- Concrete stake state for C9: 5 units unstaking since time 100. -/
def cexStakeC9 : StakeState :=
  { staked_amount := 0, unstaking_amount := 5,
    unstaking_begin_time := some 100, unstaked_amount := 0,
    multiplier := 0, dividend := 0 }

/-- C9 (counterexample): at the boundary `now = begin + unstake_delay =
110`, the state-updating fold (inclusive `≤`) moves the 5 unstaking
units into unstaked, but the read-only view (strict `<`) still reports
them as unstaking, so the two disagree there. -/
theorem c9_counterexample :
    cexStakeC9.unstaking_unstaked_amount 110 10 = (5, 0) ∧
    (cexStakeC9.update_unstaked_amount 110 10).unstaking_amount = 0 ∧
    (cexStakeC9.update_unstaked_amount 110 10).unstaked_amount = 5 ∧
    cexStakeC9.unstaking_unstaked_amount 110 10 ≠
      ((cexStakeC9.update_unstaked_amount 110 10).unstaking_amount,
        (cexStakeC9.update_unstaked_amount 110 10).unstaked_amount) := by
  decide

/-- C9 (amended): for a stake state with `unstaking_begin_time = some b`,
once `b + unstake_delay ≤ now` the fold moves the whole unstaking amount
into unstaked and clears both unstaking and the begin time; the
read-only view agrees with the fold at every time except exactly
`now = b + unstake_delay`, where the fold moves the amount but the view
does not. -/
theorem c9_fold_unstaked (s : StakeState) (b delay now : Nat)
    (h : s.unstaking_begin_time = some b) :
    (b + delay ≤ now →
      (s.update_unstaked_amount now delay).unstaked_amount =
          s.unstaked_amount + s.unstaking_amount ∧
        (s.update_unstaked_amount now delay).unstaking_amount = 0 ∧
        (s.update_unstaked_amount now delay).unstaking_begin_time = none) ∧
    (now ≠ b + delay →
      s.unstaking_unstaked_amount now delay =
        ((s.update_unstaked_amount now delay).unstaking_amount,
          (s.update_unstaked_amount now delay).unstaked_amount)) := by
  unfold StakeState.update_unstaked_amount StakeState.unstaking_unstaked_amount
  rw [h]
  constructor
  · intro hle
    simp [hle]
  · intro hne
    by_cases hle : b + delay ≤ now
    · have hlt : b + delay < now := by omega
      simp [hle, hlt]
    · have hlt : ¬ b + delay < now := by omega
      simp [hle, hlt]

/-- C9 (witness): the fold applied strictly after the boundary. -/
theorem c9_fold_unstaked_witness :
    (cexStakeC9.update_unstaked_amount 120 10).unstaked_amount =
        cexStakeC9.unstaked_amount + cexStakeC9.unstaking_amount ∧
      (cexStakeC9.update_unstaked_amount 120 10).unstaking_amount = 0 ∧
      (cexStakeC9.update_unstaked_amount 120 10).unstaking_begin_time = none :=
  (c9_fold_unstaked cexStakeC9 100 10 120 rfl).1 (by decide)

/-- C10: the dividend computation is total (a total function in this
model), equals cached dividend plus
`staked · (global − entry, saturating) / 10^18`, accrues nothing (and in
particular cannot underflow) when the entry multiplier is at least the
global one, and folding with `update_dividend` is idempotent at a fixed
global multiplier. -/
theorem c10_dividend_saturating_idempotent (s : StakeState) (g : Nat) :
    s.full_dividend g =
        s.dividend + s.staked_amount * (g - s.multiplier) / DECIMAL_FRACTIONAL ∧
      (g ≤ s.multiplier → s.full_dividend g = s.dividend) ∧
      (s.update_dividend g).full_dividend g = s.full_dividend g ∧
      (s.update_dividend g).update_dividend g = s.update_dividend g := by
  refine ⟨rfl, ?_, ?_, ?_⟩
  · intro hle
    simp [StakeState.full_dividend, Nat.sub_eq_zero_of_le hle]
  · simp [StakeState.full_dividend, StakeState.update_dividend]
  · simp [StakeState.update_dividend, StakeState.full_dividend]

/-- Concrete stake state for the C10 witness: entry multiplier above the
global multiplier. -/
def cexStakeC10 : StakeState :=
  { staked_amount := 100, unstaking_amount := 0,
    unstaking_begin_time := none, unstaked_amount := 0,
    multiplier := 7 * 10 ^ 18, dividend := 3 }

/-- C10 (witness): no dividend accrues when the entry multiplier exceeds
the global multiplier. -/
theorem c10_dividend_witness :
    cexStakeC10.full_dividend (5 * 10 ^ 18) = cexStakeC10.dividend :=
  (c10_dividend_saturating_idempotent cexStakeC10 (5 * 10 ^ 18)).2.1 (by decide)

/-- Concrete configuration for the C4 theorems. -/
def cexConfigC4 : Config :=
  { collector_addr := "col", stable_denom := "uusd", min_lease_secs := 0,
    max_lease_secs := 8640000, counter_delay_secs := 100,
    transition_delay_secs := 200, bid_delay_secs := 300 }

/-- Concrete record for the C4 counterexample: a first-ever bid (no
previous owner) still inside its counter window. -/
def cexNameStateC4 : NameState :=
  { owner := "bob", controller := none, transition_reference_time := 1000,
    rate := 1, begin_time := 1000, begin_deposit := 50,
    previous_owner := none, previous_transition_reference_time := 0 }

/-- C4 (counterexample): at `now = 1050` the record is in `CounterDelay`
with no previous owner, so the response's `name_owner` is `None` even
though the phase is not `Expired` — refuting "`name_owner` is `None`
exactly when the phase is Expired". -/
theorem c4_counterexample :
    (query_name_state cexConfigC4 cexNameStateC4 1050).name_owner = none ∧
    cexNameStateC4.owner_status cexConfigC4 1050 =
      .counterDelay none "bob" 0 ∧
    (cexNameStateC4.owner_status cexConfigC4 1050).isExpired = false := by
  decide

/-- C4 (amended): in the spec-modelled `GetNameState` response,
`name_owner` is `None` exactly when the phase is `Expired` or is
`CounterDelay` with no previous owner; `bid_owner` is `None` exactly in
`Expired`; in `Valid` and `TransitionDelay` both equal the phase owner;
and the response carries the `current_deposit` field (the saturating
remaining deposit of spec I2). -/
theorem c4_query_name_state_owners (config : Config) (ns : NameState)
    (now : Nat) :
    ((query_name_state config ns now).name_owner = none ↔
      (ns.owner_status config now).isExpired = true ∨
        ∃ b t, ns.owner_status config now = .counterDelay none b t) ∧
    ((query_name_state config ns now).bid_owner = none ↔
      (ns.owner_status config now).isExpired = true) ∧
    (∀ o t, ns.owner_status config now = .valid o t ∨
        ns.owner_status config now = .transitionDelay o t →
      (query_name_state config ns now).name_owner = some o ∧
        (query_name_state config ns now).bid_owner = some o) ∧
    (query_name_state config ns now).current_deposit =
      ns.begin_deposit -
        deposit_from_seconds_ceil (now - ns.begin_time) ns.rate := by
  cases hst : ns.owner_status config now with
  | counterDelay name_owner bid_owner t =>
      cases name_owner <;>
        simp [query_name_state, hst, OwnerStatus.isExpired]
  | transitionDelay o t =>
      simp [query_name_state, hst, OwnerStatus.isExpired]
  | valid o t =>
      simp [query_name_state, hst, OwnerStatus.isExpired]
  | expired e t =>
      simp [query_name_state, hst, OwnerStatus.isExpired]

/-- Concrete record in the `Valid` phase for the C4 witness. -/
def cexNameStateC4v : NameState :=
  { owner := "alice", controller := none, transition_reference_time := 0,
    rate := 1, begin_time := 0, begin_deposit := 50,
    previous_owner := none, previous_transition_reference_time := 0 }

/-- C4 (witness): in the `Valid` phase both owner fields of the response
equal the record owner. -/
theorem c4_query_name_state_witness :
    cexNameStateC4v.owner_status cexConfigC4 1000 = .valid "alice" 0 ∧
    (query_name_state cexConfigC4 cexNameStateC4v 1000).name_owner =
      some "alice" ∧
    (query_name_state cexConfigC4 cexNameStateC4v 1000).bid_owner =
      some "alice" :=
  ⟨by decide,
    ((c4_query_name_state_owners cexConfigC4 cexNameStateC4v 1000).2.2.1
      "alice" 0 (Or.inl (by decide))).1,
    ((c4_query_name_state_owners cexConfigC4 cexNameStateC4v 1000).2.2.1
      "alice" 0 (Or.inl (by decide))).2⟩

/-- A zero rate spends no deposit. -/
theorem deposit_ceil_zero_rate (s : Nat) : deposit_from_seconds_ceil s 0 = 0 := by
  simp [deposit_from_seconds_ceil, RATE_SEC_DENOM]

/-- Strictly inside the affordable lease, the ceil-rounded spent rent
does not exceed the deposit. -/
theorem deposit_ceil_le_of_lt_max (s dep rate : Nat) (hrate : 0 < rate)
    (h1 : s < dep * RATE_SEC_DENOM / rate) :
    deposit_from_seconds_ceil s rate ≤ dep := by
  have h2 : (s + 1) * rate ≤ dep * RATE_SEC_DENOM :=
    (Nat.le_div_iff_mul_le hrate).mp (Nat.succ_le_of_lt h1)
  rw [Nat.succ_mul] at h2
  unfold deposit_from_seconds_ceil
  unfold RATE_SEC_DENOM at *
  generalize s * rate = x at *
  omega

/-- A non-expired record has begun. -/
theorem begin_le_of_not_expired (config : Config) (ns : NameState) (now : Nat)
    (h : (ns.owner_status config now).isExpired = false) :
    ns.begin_time ≤ now := by
  unfold NameState.owner_status NameState.seconds_spent_since_bid checked_sub at h
  by_cases hlt : now < ns.begin_time
  · simp [hlt, OwnerStatus.isExpired] at h
  · omega

/-- In a non-expired record the ceil-rounded spent rent does not exceed
the starting deposit. -/
theorem spent_le_deposit_of_not_expired (config : Config) (ns : NameState)
    (now : Nat) (h : (ns.owner_status config now).isExpired = false) :
    deposit_from_seconds_ceil (now - ns.begin_time) ns.rate ≤
      ns.begin_deposit := by
  unfold NameState.owner_status at h
  rcases hsb : ns.seconds_spent_since_bid now with _ | s
  · rw [hsb] at h
    simp [OwnerStatus.isExpired] at h
  · rw [hsb] at h
    have hs : s = now - ns.begin_time := by
      unfold NameState.seconds_spent_since_bid checked_sub at hsb
      split at hsb <;> simp_all
    rcases hms : ns.max_seconds with _ | max_s
    · have hrate : ns.rate = 0 := by
        unfold NameState.max_seconds seconds_from_deposit at hms
        split at hms <;> simp_all
      simp [hrate, deposit_ceil_zero_rate]
    · rw [hms] at h
      by_cases hle : max_s ≤ s
      · simp [hle, OwnerStatus.isExpired] at h
      · have hrate : ns.rate ≠ 0 ∧
            max_s = ns.begin_deposit * RATE_SEC_DENOM / ns.rate % 2 ^ 64 := by
          unfold NameState.max_seconds seconds_from_deposit at hms
          split at hms <;> simp_all
        apply deposit_ceil_le_of_lt_max _ _ _ (Nat.pos_of_ne_zero hrate.1)
        have hmod :=
          Nat.mod_le (ns.begin_deposit * RATE_SEC_DENOM / ns.rate) (2 ^ 64)
        omega

/-- Inversion of a successful `execute_bid_existing`: the guards that
must have passed and the exact stored record and effects. -/
theorem execute_bid_existing_ok_inv (config : Config) (info : MessageInfo)
    (now : Nat) (ns : NameState) (ownerArg : Option String)
    (trtArg rate : Nat) (B : NameState) (effs : List Effect)
    (h : execute_bid_existing config info now ns ownerArg trtArg rate =
      some (.ok (B, effs))) :
    info.sender ≠ ns.owner ∧
    ns.begin_time ≤ now ∧
    ns.begin_deposit -
        deposit_from_seconds_ceil (now - ns.begin_time) ns.rate <
      get_sent_funds info config.stable_denom ∧
    B = { ns with
      previous_owner := ownerArg
      previous_transition_reference_time := trtArg
      owner := info.sender
      rate := rate
      begin_time := now
      begin_deposit := get_sent_funds info config.stable_denom
      transition_reference_time :=
        if some info.sender ≠ ownerArg then now else trtArg } ∧
    effs = (if ns.begin_deposit -
          deposit_from_seconds_ceil (now - ns.begin_time) ns.rate ≠ 0 then
        [Effect.refund ns.owner (ns.begin_deposit -
          deposit_from_seconds_ceil (now - ns.begin_time) ns.rate)]
      else []) ++
      [Effect.forward (get_sent_funds info config.stable_denom -
        (ns.begin_deposit -
          deposit_from_seconds_ceil (now - ns.begin_time) ns.rate))] := by
  unfold execute_bid_existing at h
  by_cases h1 : info.sender = ns.owner
  · simp [h1] at h
  · rw [if_neg h1] at h
    rcases hsb : ns.seconds_spent_since_bid now with _ | s
    · rw [hsb] at h
      simp at h
    · rw [hsb] at h
      have hs : ¬ now < ns.begin_time ∧ s = now - ns.begin_time := by
        unfold NameState.seconds_spent_since_bid checked_sub at hsb
        split at hsb <;> simp_all
      obtain ⟨hnlt, rfl⟩ := hs
      simp only at h
      by_cases h2 : config.counter_delay_secs ≤ now - ns.begin_time ∧
          now - ns.begin_time <
            config.counter_delay_secs + config.bid_delay_secs ∧
          ns.rate ≠ 0
      · simp [h2] at h
      · rw [if_neg h2] at h
        by_cases h3 : rate ≤ ns.rate
        · simp [h3] at h
        · rw [if_neg h3] at h
          by_cases h4 : get_sent_funds info config.stable_denom ≤
              ns.begin_deposit -
                deposit_from_seconds_ceil (now - ns.begin_time) ns.rate
          · simp [h4] at h
          · rw [if_neg h4] at h
            by_cases h5 : get_sent_funds info config.stable_denom <
                deposit_from_seconds_ceil config.min_lease_secs rate ∨
                deposit_from_seconds_floor config.max_lease_secs rate <
                  get_sent_funds info config.stable_denom
            · simp [h5] at h
            · rw [if_neg h5] at h
              rw [show checked_sub (get_sent_funds info config.stable_denom)
                    (ns.begin_deposit -
                      deposit_from_seconds_ceil (now - ns.begin_time) ns.rate) =
                  some (get_sent_funds info config.stable_denom -
                    (ns.begin_deposit -
                      deposit_from_seconds_ceil (now - ns.begin_time) ns.rate))
                from by unfold checked_sub; rw [if_neg (by omega)]] at h
              simp only [Option.some.injEq, Except.ok.injEq,
                Prod.mk.injEq] at h
              exact ⟨h1, by omega, by omega, h.1.symm, h.2.symm⟩

/-- C2 (amended): over any successful bid that transitions a non-expired
record `A` to record `B` at time `now`, the previous deposit splits as
`A.begin_deposit = spent + refund` with
`spent = deposit_ceil(now − A.begin_time, A.rate)`, and the newly
attached deposit splits as `B.begin_deposit = refund + forwarded`, where
`refund` is the amount refunded to the previous bid holder and
`forwarded` the amount sent to the collector. -/
theorem c2_rent_conservation (config : Config) (info : MessageInfo)
    (now : Nat) (A : NameState) (rate : Nat) (B : NameState)
    (effs : List Effect)
    (hne : (A.owner_status config now).isExpired = false)
    (h : execute_bid config info now (some A) rate = some (.ok (B, effs))) :
    A.begin_deposit =
      deposit_from_seconds_ceil (now - A.begin_time) A.rate +
        sumRefunds effs ∧
    B.begin_deposit = sumRefunds effs + sumForwards effs := by
  have hspent := spent_le_deposit_of_not_expired config A now hne
  unfold execute_bid at h
  simp only at h
  rcases hst : A.owner_status config now with ⟨no, bo, t⟩ | ⟨o, t⟩ | ⟨o, t⟩ | ⟨e, t⟩
  case expired =>
    rw [hst] at hne
    simp [OwnerStatus.isExpired] at hne
  all_goals rw [hst] at h
  all_goals
    obtain ⟨hso, hbt, hlt, hB, heff⟩ :=
      execute_bid_existing_ok_inv _ _ _ _ _ _ _ _ _ h
  all_goals subst hB; subst heff
  all_goals constructor
  all_goals
    by_cases hz : A.begin_deposit -
        deposit_from_seconds_ceil (now - A.begin_time) A.rate ≠ 0 <;>
      simp [hz, sumRefunds, sumForwards] <;> omega

/-- Concrete configuration for the bidding scenarios. -/
def cexConfigBid : Config :=
  { collector_addr := "col", stable_denom := "uusd",
    min_lease_secs := 86400, max_lease_secs := 8640000,
    counter_delay_secs := 100, transition_delay_secs := 200,
    bid_delay_secs := 300 }

/-- Concrete existing record for the bidding scenarios: owner `alice`,
rate 1 per day, deposit 50, begun at time 0. -/
def cexNameStateBid : NameState :=
  { owner := "alice", controller := none, transition_reference_time := 0,
    rate := 1, begin_time := 0, begin_deposit := 50,
    previous_owner := none, previous_transition_reference_time := 0 }

/-- Concrete bid message: `bob` attaches 60 uusd. -/
def cexInfoBid : MessageInfo :=
  { sender := "bob", funds := [("uusd", 60)] }

/-- Record stored by the concrete bid of `bob` at time 1000. -/
def cexStateBidB : NameState :=
  { owner := "bob", controller := none, transition_reference_time := 1000,
    rate := 2, begin_time := 1000, begin_deposit := 60,
    previous_owner := some "alice",
    previous_transition_reference_time := 0 }

/-- C2 (counterexample): in the concrete successful bid the code spends
1, refunds 49 and forwards 11, so `spent + refund + forwarded = 61`
differs from `A.begin_deposit = 50` — the claimed identity
`A.begin_deposit = spent + refund + forwarded` fails (the attached
deposit, not the old one, covers the forwarded excess). -/
theorem c2_counterexample :
    execute_bid cexConfigBid cexInfoBid 1000 (some cexNameStateBid) 2 =
      some (.ok (cexStateBidB,
        [Effect.refund "alice" 49, Effect.forward 11])) ∧
    deposit_from_seconds_ceil (1000 - cexNameStateBid.begin_time)
      cexNameStateBid.rate = 1 ∧
    sumRefunds [Effect.refund "alice" 49, Effect.forward 11] = 49 ∧
    sumForwards [Effect.refund "alice" 49, Effect.forward 11] = 11 ∧
    1 + 49 + 11 ≠ cexNameStateBid.begin_deposit :=
  ⟨rfl, rfl, rfl, rfl, by decide⟩

/-- C2 (witness): the amended split identities on the concrete bid. -/
theorem c2_rent_conservation_witness :
    cexNameStateBid.begin_deposit =
      deposit_from_seconds_ceil (1000 - cexNameStateBid.begin_time)
          cexNameStateBid.rate +
        sumRefunds [Effect.refund "alice" 49, Effect.forward 11] ∧
    cexStateBidB.begin_deposit =
      sumRefunds [Effect.refund "alice" 49, Effect.forward 11] +
        sumForwards [Effect.refund "alice" 49, Effect.forward 11] :=
  c2_rent_conservation cexConfigBid cexInfoBid 1000 cexNameStateBid 2
    cexStateBidB [Effect.refund "alice" 49, Effect.forward 11]
    (by decide) rfl

/-- The previous authoritative owner as extracted from the phase by
`execute_bid`: the record owner in Valid/TransitionDelay, the phase's
`name_owner` in CounterDelay, none when Expired. -/
def previous_authoritative_owner (config : Config) (ns : NameState)
    (now : Nat) : Option String :=
  match ns.owner_status config now with
  | .valid owner _ => some owner
  | .transitionDelay owner _ => some owner
  | .counterDelay name_owner _ _ => name_owner
  | .expired _ _ => none

/-- C5: on a successful bid over an existing (non-expired) record,
`transition_reference_time` is set to `now` exactly when the bidding
sender differs from the previous authoritative owner; otherwise it is
set to the stored `previous_transition_reference_time` (the phase's
transition reference), so the original owner re-winning during its own
counter window does not start a new transition. -/
theorem c5_transition_reference_update (config : Config)
    (info : MessageInfo) (now : Nat) (A : NameState) (rate : Nat)
    (B : NameState) (effs : List Effect)
    (hne : (A.owner_status config now).isExpired = false)
    (h : execute_bid config info now (some A) rate = some (.ok (B, effs))) :
    (some info.sender ≠ previous_authoritative_owner config A now →
      B.transition_reference_time = now) ∧
    (some info.sender = previous_authoritative_owner config A now →
      B.transition_reference_time =
        B.previous_transition_reference_time) := by
  unfold execute_bid at h
  simp only at h
  rcases hst : A.owner_status config now with
    ⟨no, bo, t⟩ | ⟨o, t⟩ | ⟨o, t⟩ | ⟨e, t⟩
  case expired =>
    rw [hst] at hne
    simp [OwnerStatus.isExpired] at hne
  all_goals rw [hst] at h
  all_goals
    obtain ⟨hso, hbt, hlt, hB, heff⟩ :=
      execute_bid_existing_ok_inv _ _ _ _ _ _ _ _ _ h
  all_goals subst hB
  all_goals simp only [previous_authoritative_owner, hst]
  all_goals constructor <;> intro hcond <;> simp [hcond]

/-- C5 (witness): `bob` outbidding `alice` (a different authoritative
owner) restarts the transition reference at the bid time. -/
theorem c5_transition_reference_witness :
    cexStateBidB.transition_reference_time = 1000 :=
  (c5_transition_reference_update cexConfigBid cexInfoBid 1000
    cexNameStateBid 2 cexStateBidB
    [Effect.refund "alice" 49, Effect.forward 11]
    (by decide) rfl).1 (by decide)

/-- At zero rate `execute_bid_existing` never answers `ClosedForBids`. -/
theorem bid_existing_rate_zero_ne_closed (config : Config)
    (info : MessageInfo) (now : Nat) (ns : NameState)
    (ownerArg : Option String) (trtArg rate : Nat) (hrate : ns.rate = 0) :
    execute_bid_existing config info now ns ownerArg trtArg rate ≠
      some (.error .closedForBids) := by
  unfold execute_bid_existing
  by_cases h1 : info.sender = ns.owner
  · simp [h1]
  · rw [if_neg h1]
    rcases hsb : ns.seconds_spent_since_bid now with _ | s
    · simp
    · simp only
      rw [if_neg (by simp [hrate])]
      split
      · simp
      · split
        · simp
        · split
          · simp
          · split <;> simp

/-- C6: a bid on an existing, non-expired record by a sender other than
the current bid holder fails with `ClosedForBids` (leaving the record
unchanged, since only an `ok` result is stored) when
`counter_delay ≤ now − begin_time < counter_delay + bid_delay` and the
rate is non-zero; at zero rate this rejection never occurs. -/
theorem c6_closed_for_bids (config : Config) (info : MessageInfo)
    (now : Nat) (A : NameState) (rate : Nat)
    (hne : (A.owner_status config now).isExpired = false)
    (hsender : info.sender ≠ A.owner) :
    (config.counter_delay_secs ≤ now - A.begin_time ∧
        now - A.begin_time <
          config.counter_delay_secs + config.bid_delay_secs ∧
        A.rate ≠ 0 →
      execute_bid config info now (some A) rate =
        some (.error .closedForBids)) ∧
    (A.rate = 0 →
      execute_bid config info now (some A) rate ≠
        some (.error .closedForBids)) := by
  have hbt := begin_le_of_not_expired config A now hne
  have hsb : A.seconds_spent_since_bid now = some (now - A.begin_time) := by
    unfold NameState.seconds_spent_since_bid checked_sub
    rw [if_neg (by omega)]
  constructor
  · intro hcond
    unfold execute_bid
    simp only
    rcases hst : A.owner_status config now with
      ⟨no, bo, t⟩ | ⟨o, t⟩ | ⟨o, t⟩ | ⟨e, t⟩
    case expired =>
      rw [hst] at hne
      simp [OwnerStatus.isExpired] at hne
    all_goals simp only
    all_goals
      unfold execute_bid_existing
      rw [if_neg hsender, hsb]
      simp only
      rw [if_pos hcond]
  · intro hrate
    unfold execute_bid
    simp only
    rcases hst : A.owner_status config now with
      ⟨no, bo, t⟩ | ⟨o, t⟩ | ⟨o, t⟩ | ⟨e, t⟩
    case expired =>
      rw [hst] at hne
      simp [OwnerStatus.isExpired] at hne
    all_goals simp only
    all_goals exact bid_existing_rate_zero_ne_closed _ _ _ _ _ _ _ hrate

/-- C6 (witness): at `now = 150` the record is inside the bid-delay
window (`100 ≤ 150 < 400`) with non-zero rate, and the bid fails
`ClosedForBids`. -/
theorem c6_closed_for_bids_witness :
    execute_bid cexConfigBid cexInfoBid 150 (some cexNameStateBid) 2 =
      some (.error .closedForBids) :=
  (c6_closed_for_bids cexConfigBid cexInfoBid 150 cexNameStateBid 2
    (by decide) (by decide)).1 (by decide)

/-- A sender authorized by `can_set_rate` implies a non-expired phase. -/
theorem not_expired_of_can_set_rate (config : Config) (ns : NameState)
    (now : Nat) (sender : String)
    (h : (ns.owner_status config now).can_set_rate sender = true) :
    (ns.owner_status config now).isExpired = false := by
  cases hq : ns.owner_status config now with
  | counterDelay no bo t =>
      rw [hq] at h
      simp [OwnerStatus.can_set_rate] at h
  | expired e t =>
      rw [hq] at h
      simp [OwnerStatus.can_set_rate] at h
  | valid o t => simp [OwnerStatus.isExpired]
  | transitionDelay o t => simp [OwnerStatus.isExpired]

/-- C7: `SetNameRate` fails `Unauthorized` unless `can_set_rate` holds
for the sender; with authorization it fails `BidInvalidInterval` unless
`deposit_ceil(min_lease, new_rate) ≤ remaining ≤ deposit_floor(max_lease,
new_rate)` for `remaining = saturating_sub(begin_deposit,
deposit_ceil(now − begin_time, rate))`; and on success it stores the
record with `rate = new_rate`, `begin_time = now`, `begin_deposit =
remaining`, `previous_owner = Some(owner)`,
`previous_transition_reference_time` = the old transition reference,
leaving `transition_reference_time`, `owner` and `controller`
unchanged. -/
theorem c7_set_rate_characterization (config : Config)
    (info : MessageInfo) (now : Nat) (A : NameState) (rate : Nat) :
    ((A.owner_status config now).can_set_rate info.sender = false →
      execute_set_rate config info now A rate = .error .unauthorized) ∧
    ((A.owner_status config now).can_set_rate info.sender = true →
      (A.begin_deposit -
            deposit_from_seconds_ceil (now - A.begin_time) A.rate <
          deposit_from_seconds_ceil config.min_lease_secs rate ∨
        deposit_from_seconds_floor config.max_lease_secs rate <
          A.begin_deposit -
            deposit_from_seconds_ceil (now - A.begin_time) A.rate →
        execute_set_rate config info now A rate =
          .error .bidInvalidInterval) ∧
      (deposit_from_seconds_ceil config.min_lease_secs rate ≤
          A.begin_deposit -
            deposit_from_seconds_ceil (now - A.begin_time) A.rate ∧
        A.begin_deposit -
            deposit_from_seconds_ceil (now - A.begin_time) A.rate ≤
          deposit_from_seconds_floor config.max_lease_secs rate →
        execute_set_rate config info now A rate = .ok
          ({ A with
            rate := rate
            begin_time := now
            begin_deposit := A.begin_deposit -
              deposit_from_seconds_ceil (now - A.begin_time) A.rate
            previous_owner := some A.owner
            previous_transition_reference_time :=
              A.transition_reference_time }, []))) := by
  constructor
  · intro hno
    simp [execute_set_rate, hno]
  · intro hyes
    have hne := not_expired_of_can_set_rate _ _ _ _ hyes
    have hbt := begin_le_of_not_expired _ _ _ hne
    have hcs : checked_sub now A.begin_time = some (now - A.begin_time) := by
      unfold checked_sub
      rw [if_neg (by omega)]
    unfold execute_set_rate
    rw [if_neg (by simp [hyes]), hcs]
    simp only
    constructor
    · intro hbad
      rw [if_pos hbad]
    · intro hgood
      rw [if_neg (by omega)]

/-- Rate-setting message with no funds, sent by `alice`. -/
def cexInfoAlice : MessageInfo := { sender := "alice", funds := [] }

/-- C7 (witness): the owner doubling the rate at `now = 1000` succeeds
and stores the prorated remaining deposit. -/
theorem c7_set_rate_witness :
    execute_set_rate cexConfigBid cexInfoAlice 1000 cexNameStateBid 2 =
      .ok ({ cexNameStateBid with
        rate := 2
        begin_time := 1000
        begin_deposit := 49
        previous_owner := some "alice"
        previous_transition_reference_time :=
          cexNameStateBid.transition_reference_time }, []) :=
  ((c7_set_rate_characterization cexConfigBid cexInfoAlice 1000
    cexNameStateBid 2).2 (by decide)).2 (by decide)

/-- C8: `FundName` on a record that has begun requires a positive
attached amount (else `Unfunded`), the stated owner (else
`UnexpectedState`), and `begin_deposit + attached ≤
deposit_floor(max_lease + (now − begin_time), rate)` (else
`BidInvalidInterval`); on success only `begin_deposit` grows, by exactly
the attached amount, and the full attached amount is forwarded to the
collector. -/
theorem c8_fund_characterization (config : Config) (info : MessageInfo)
    (now : Nat) (A : NameState) (owner : String)
    (hbt : A.begin_time ≤ now) :
    (get_sent_funds info config.stable_denom = 0 →
      execute_fund config info now A owner = .error .unfunded) ∧
    (get_sent_funds info config.stable_denom ≠ 0 → A.owner ≠ owner →
      execute_fund config info now A owner = .error .unexpectedState) ∧
    (get_sent_funds info config.stable_denom ≠ 0 → A.owner = owner →
      (deposit_from_seconds_floor
            (config.max_lease_secs + (now - A.begin_time)) A.rate <
          A.begin_deposit + get_sent_funds info config.stable_denom →
        execute_fund config info now A owner =
          .error .bidInvalidInterval) ∧
      (A.begin_deposit + get_sent_funds info config.stable_denom ≤
          deposit_from_seconds_floor
            (config.max_lease_secs + (now - A.begin_time)) A.rate →
        execute_fund config info now A owner = .ok
          ({ A with begin_deposit :=
              get_sent_funds info config.stable_denom + A.begin_deposit },
            [Effect.forward (get_sent_funds info config.stable_denom)]))) := by
  have hsb : A.seconds_spent_since_bid now = some (now - A.begin_time) := by
    unfold NameState.seconds_spent_since_bid checked_sub
    rw [if_neg (by omega)]
  refine ⟨?_, ?_, ?_⟩
  · intro h0
    simp [execute_fund, h0]
  · intro h0 hown
    unfold execute_fund
    rw [if_neg h0, if_pos hown]
  · intro h0 hown
    simp only [execute_fund, NameState.max_allowed_deposit, hsb]
    rw [if_neg h0, if_neg (fun hc => hc hown)]
    constructor
    · intro hbad
      rw [if_pos (by omega)]
    · intro hgood
      rw [if_neg (by omega)]

/-- Funding message: `carol` attaches 10 uusd. -/
def cexInfoFund : MessageInfo := { sender := "carol", funds := [("uusd", 10)] }

/-- C8 (witness): funding `alice`'s record with 10 at `now = 2000`
succeeds, growing the deposit from 50 to 60 and forwarding 10. -/
theorem c8_fund_witness :
    execute_fund cexConfigBid cexInfoFund 2000 cexNameStateBid "alice" =
      .ok ({ cexNameStateBid with begin_deposit := 60 },
        [Effect.forward 10]) :=
  ((c8_fund_characterization cexConfigBid cexInfoFund 2000 cexNameStateBid
    "alice" (by decide)).2.2 (by decide) (by decide)).2 (by decide)
